import Mathlib

/-!
Verification development for the Smart Study Partner quiz application
(`src/Streamlit/Main.py`). The quiz-generation pipeline, the session-state
handlers and the history ledger are embedded shallowly: Python dicts keyed by
`int` become association lists `List (Nat × α)`, the HTTP response is an
explicit input value, `json.loads` together with the envelope shape is an
abstract parameter `parse : String → Option ParsedDoc`, and `random.shuffle`
is a parameter producing some rearrangement of the options list (theorems
quantify over all permutations it may produce).
-/

namespace SmartStudy

/-- Literal `{` character (written via its code point). -/
def lbrace : Char := Char.ofNat 123

/-- Literal `}` character (written via its code point). -/
def rbrace : Char := Char.ofNat 125

/-- One element of the array under key `"quiz"` in the model's JSON reply,
as the code accesses it: a dict whose keys `question`, `options`, `answer`,
`explanation` may each be absent (`none`). -/
structure RawQ where
  question : Option String
  options : Option (List String)
  answer : Option String
  explanation : Option String
deriving Repr, DecidableEq, Inhabited

/-- The parsed JSON document, as far as `generate_quiz` inspects it:
`quiz_data.get("quiz", [])` reads the optional array under key `"quiz"`. -/
structure ParsedDoc where
  quiz : Option (List RawQ)
deriving Repr, DecidableEq

/-- Python `s.startswith(pre)`, over code points. -/
def pyStartsWith (s pre : String) : Bool :=
  pre.data.isPrefixOf s.data

/-- Python `s.endswith(suf)`, over code points. -/
def pyEndsWith (s suf : String) : Bool :=
  suf.data.isSuffixOf s.data

/-- Python `s[n:]`, over code points. -/
def pyDrop (s : String) (n : Nat) : String :=
  String.mk (s.data.drop n)

/-- Python `s[:-n]` for `n ≥ 1`, over code points. -/
def pyDropRight (s : String) (n : Nat) : String :=
  String.mk (s.data.take (s.data.length - n))

/-- Python `s[:n]`, over code points. -/
def pyTake (s : String) (n : Nat) : String :=
  String.mk (s.data.take n)

/-- Python `s.strip()`: remove leading and trailing whitespace. -/
def pyStrip (s : String) : String :=
  String.mk (((s.data.dropWhile Char.isWhitespace).reverse.dropWhile
    Char.isWhitespace).reverse)

/-- Error message of `Main.py` line 143/145. -/
def parseFailMsg : String := "Failed to parse quiz response."

/-- Error message of `Main.py` line 150. -/
def emptyMsg : String := "No questions generated. Try with more detailed text."

/-- Error message of `Main.py` line 158. -/
def invalidMsg : String := "Invalid question format received."

/-- `Main.py` lines 126-132: strip a leading ```` ```json ```` or ```` ``` ````
fence, a trailing ```` ``` ```` fence, then strip whitespace. Python slicing
`[7:]`, `[3:]`, `[:-3]` acts on code points, matching `String.drop` /
`String.dropRight`. -/
def cleanMarkdown (s : String) : String :=
  let t1 := if pyStartsWith s "```json" then pyDrop s 7 else s
  let t2 := if pyStartsWith t1 "```" then pyDrop t1 3 else t1
  let t3 := if pyEndsWith t2 "```" then pyDropRight t2 3 else t2
  pyStrip t3

/-- The fallback regex `re.search(r'\{.*\}', text, re.DOTALL)` of line 138:
greedy match from the first `{` through the last `}`, provided some `}`
follows the first `{`. -/
def braceSpan (s : String) : Option String :=
  let cs := s.data
  match cs.findIdx? (· = lbrace), cs.reverse.findIdx? (· = rbrace) with
  | some i, some r =>
      let j := cs.length - 1 - r
      if i < j then some (String.mk ((cs.drop i).take (j - i + 1))) else none
  | _, _ => none

/-- `Main.py` lines 123-145: the content is stripped, fences removed, then
`json.loads` is tried on the cleaned text and, failing that, on the greedy
brace span; both failing yields the fixed parse-failure message.
`parse` abstracts `json.loads` plus reading the document shape. -/
def extractQuizData (parse : String → Option ParsedDoc) (content : String) :
    Except String ParsedDoc :=
  let t := cleanMarkdown (pyStrip content)
  match parse t with
  | some d => .ok d
  | none =>
    match braceSpan t with
    | some sub =>
      match parse sub with
      | some d => .ok d
      | none => .error parseFailMsg
    | none => .error parseFailMsg

/-- Line 153: `"options" in q and "answer" in q and "question" in q`. -/
def checkKeys (q : RawQ) : Bool :=
  q.options.isSome && q.answer.isSome && q.question.isSome

/-- Loop body, lines 154-156: `correct = q["answer"]`;
`random.shuffle(q["options"])`; `q["answer"] = correct`. The shuffled
options list is supplied by the random source; the answer field is saved
and written back unchanged. -/
def shuffleQuestion (shuffled : List String) (q : RawQ) : RawQ :=
  { q with options := some shuffled, answer := q.answer }

/-- Lines 152-158: walk the question list; a question with all three keys is
shuffled (the random source `σ` supplies the rearranged options for position
`i`), a question missing a key aborts the whole batch with `invalidMsg`. -/
def processQuestions (σ : Nat → List String → List String) :
    Nat → List RawQ → Except String (List RawQ)
  | _, [] => .ok []
  | i, q :: rest =>
    if checkKeys q then
      match processQuestions σ (i + 1) rest with
      | .ok out => .ok (shuffleQuestion (σ i (q.options.getD [])) q :: out)
      | .error e => .error e
    else .error invalidMsg

/-- Lines 147-158: `quiz_questions = quiz_data.get("quiz", [])`, the
empty-result check, then the per-question key check and shuffle. -/
def validateQuiz (σ : Nat → List String → List String) (d : ParsedDoc) :
    Except String (List RawQ) :=
  let qs := d.quiz.getD []
  if qs.isEmpty then .error emptyMsg
  else processQuestions σ 0 qs

/-- Lines 70-93: the prompt template; the question count appears only here,
and the source text is truncated to its first 2000 characters. -/
def buildPrompt (text : String) (numQuestions : Nat) : String :=
  "Create exactly " ++ toString numQuestions ++
  " multiple-choice questions from the following text.\n\n" ++
  "IMPORTANT: Return ONLY valid JSON in this EXACT format with no additional text:\n\n" ++
  "\x7b\n  \"quiz\": [\n    \x7b\n      \"question\": \"What is the main topic?\",\n" ++
  "      \"options\": [\"a) Option 1\", \"b) Option 2\", \"c) Option 3\", \"d) Option 4\"],\n" ++
  "      \"answer\": \"b) Option 2\",\n      \"explanation\": \"Brief explanation here\"\n" ++
  "    \x7d\n  ]\n\x7d\n\nRules:\n" ++
  "- Create clear questions based ONLY on the text below\n" ++
  "- Each question must have exactly 4 options (a, b, c, d)\n" ++
  "- Only ONE correct answer per question\n" ++
  "- Include brief explanations\n" ++
  "- Return ONLY the JSON, no markdown, no extra text\n\nText to analyze:\n" ++
  pyTake text 2000

/-- Outcome of the single `requests.post` call: a timeout exception, a
transport exception, or an HTTP response. A `200` response carries
`choices[0].message.content`; a non-`200` response carries the optional
`error.message` of its body. -/
inductive ApiResponse where
  | timeout
  | requestError (msg : String)
  | http (code : Nat) (content : String) (errMsg : Option String)
deriving Repr, DecidableEq

/-- `generate_quiz` (lines 57-167): input checks, one network call whose
outcome is `resp`, status-code classification in source order, extraction,
validation and shuffling. Returns the Python pair `(quiz, error)`. -/
def generate_quiz (σ : Nat → List String → List String)
    (parse : String → Option ParsedDoc) (apiKey text : String)
    (numQuestions : Nat) (resp : ApiResponse) :
    Option (List RawQ) × Option String :=
  if pyStrip text = "" then
    (none, some "Please provide text to generate questions from.")
  else if apiKey = "" then
    (none, some "API key is required.")
  else
    let _prompt := buildPrompt text numQuestions
    match resp with
    | .timeout => (none, some "⏱️ Request timed out.")
    | .requestError e => (none, some ("🌐 Network error: " ++ e))
    | .http code content errMsg =>
      if code = 429 then
        (none, some "Rate limit exceeded. Please wait a moment and try again.")
      else if code = 401 then
        (none, some "❌ Invalid API Key. Please check your configuration.")
      else if code = 403 then
        (none, some "❌ Access Denied. Please ensure billing is set up at https://platform.openai.com/account/billing")
      else if code ≠ 200 then
        (none, some ("API Error " ++ toString code ++ ": " ++ errMsg.getD "Unknown error"))
      else
        match extractQuizData parse content with
        | .error e => (none, some e)
        | .ok d =>
          match validateQuiz σ d with
          | .error e => (none, some e)
          | .ok out => (some out, none)

/-- One invocation of `generate_quiz` against an environment offering a
stream of would-be responses: the source performs exactly one
`requests.post`, so only `resps 0` is ever consumed. -/
def generate_quiz_env (σ : Nat → List String → List String)
    (parse : String → Option ParsedDoc) (apiKey text : String)
    (numQuestions : Nat) (resps : Nat → ApiResponse) :
    Option (List RawQ) × Option String :=
  generate_quiz σ parse apiKey text numQuestions (resps 0)

/-- `d.get(k)` on a Python dict keyed by `int`, modelled as an association
list with unique keys. -/
def dget {α : Type} (d : List (Nat × α)) (k : Nat) : Option α :=
  (d.find? (fun p => p.1 == k)).map (fun p => p.2)

/-- `d[k] = v`: replace the value when the key exists, append otherwise. -/
def dinsert {α : Type} (d : List (Nat × α)) (k : Nat) (v : α) :
    List (Nat × α) :=
  if d.any (fun p => p.1 == k) then
    d.map (fun p => if p.1 == k then (k, v) else p)
  else d ++ [(k, v)]

/-- `del d[k]`. -/
def derase {α : Type} (d : List (Nat × α)) (k : Nat) : List (Nat × α) :=
  d.filter (fun p => p.1 != k)

/-- One record of `st.session_state.quiz_history` (lines 922-928); the
float percentage `score` is modelled as a rational. -/
structure Attempt where
  date : String
  score : ℚ
  correct : Nat
  total : Nat
  quizIndex : Nat
deriving DecidableEq

/-- Lines 921-928: the attempt is appended only when no existing record has
the same `date` (minute-granularity string) and the same `quiz_index`. -/
def appendAttempt (hist : List Attempt) (a : Attempt) : List Attempt :=
  if hist.any (fun h => h.date == a.date && h.quizIndex == a.quizIndex) then
    hist
  else hist ++ [a]

/-- Number of ledger entries carrying a given `(date, quiz_index)` pair. -/
def countPair (hist : List Attempt) (d : String) (qi : Nat) : Nat :=
  (hist.filter (fun h => h.date == d && h.quizIndex == qi)).length

/-- The slice of `st.session_state` the claims are about: the study-material
list, the quiz dict keyed by material index, the history ledger and the
cumulative counters (`init_session_state`, lines 172-190). -/
structure AppState where
  paragraphs : List String
  savedQuizzes : List (Nat × List RawQ)
  quizHistory : List Attempt
  apiCallsMade : Nat
  totalQuestionsAnswered : Nat
  totalCorrectAnswers : Nat
deriving DecidableEq

/-- The material a stored quiz key resolves to: `st.session_state.paragraphs[k]`. -/
def sourceOf (s : AppState) (k : Nat) : Option String :=
  s.paragraphs[k]?

/-- The "⚡ Generate Quiz Now" handler (lines 552-565): append the trimmed
input as a new paragraph, call `generate_quiz`, and store the quiz under the
new index only when no error was returned and the quiz is non-empty. -/
def genNowHandler (σ : Nat → List String → List String)
    (parse : String → Option ParsedDoc) (apiKey input : String)
    (numQuestions : Nat) (resp : ApiResponse) (s : AppState) : AppState :=
  let paras := s.paragraphs ++ [pyStrip input]
  let s1 := { s with paragraphs := paras }
  let idx := paras.length - 1
  match generate_quiz σ parse apiKey (pyStrip input) numQuestions resp with
  | (_, some _) => s1
  | (some quiz, none) =>
    if quiz.isEmpty then s1
    else { s1 with savedQuizzes := dinsert s1.savedQuizzes idx quiz,
                   apiCallsMade := s1.apiCallsMade + 1 }
  | (none, none) => s1

/-- The "⚡ Generate" handler for an already-saved material `i`
(lines 621-631): same storage rule, no paragraph change. -/
def genExistingHandler (σ : Nat → List String → List String)
    (parse : String → Option ParsedDoc) (apiKey : String) (i : Nat)
    (numQuestions : Nat) (resp : ApiResponse) (s : AppState) : AppState :=
  match generate_quiz σ parse apiKey (s.paragraphs.getD i "") numQuestions resp with
  | (_, some _) => s
  | (some quiz, none) =>
    if quiz.isEmpty then s
    else { s with savedQuizzes := dinsert s.savedQuizzes i quiz,
                  apiCallsMade := s.apiCallsMade + 1 }
  | (none, none) => s

/-- The "🔄 Regen" handler (lines 596-607): the stored quiz at key `i` is
deleted *before* `generate_quiz` is called; on failure the deletion stands. -/
def regenHandler (σ : Nat → List String → List String)
    (parse : String → Option ParsedDoc) (apiKey : String) (i : Nat)
    (numQuestions : Nat) (resp : ApiResponse) (s : AppState) : AppState :=
  let s1 := { s with savedQuizzes := derase s.savedQuizzes i }
  match generate_quiz σ parse apiKey (s.paragraphs.getD i "") numQuestions resp with
  | (_, some _) => s1
  | (some quiz, none) =>
    if quiz.isEmpty then s1
    else { s1 with savedQuizzes := dinsert s1.savedQuizzes i quiz,
                   apiCallsMade := s1.apiCallsMade + 1 }
  | (none, none) => s1

/-- The "🗑️" handler on the main page (lines 609-614):
`del paragraphs[i]` then `del saved_quizzes[i]` when present. -/
def delHandler (i : Nat) (s : AppState) : AppState :=
  { s with paragraphs := s.paragraphs.eraseIdx i,
           savedQuizzes :=
             if (dget s.savedQuizzes i).isSome then derase s.savedQuizzes i
             else s.savedQuizzes }

/-- The "🗑️ Delete" handler on the library page (lines 677-681):
`del saved_quizzes[idx]` then `del paragraphs[idx]`. -/
def libdelHandler (i : Nat) (s : AppState) : AppState :=
  { s with savedQuizzes := derase s.savedQuizzes i,
           paragraphs := s.paragraphs.eraseIdx i }

/-- Line 827: `sum(1 for i in range(len(quiz)) if user_answers.get(i) is not
None)`. -/
def answeredCount (quizLen : Nat) (answers : List (Nat × String)) : Nat :=
  (List.range quizLen).countP (fun i => (dget answers i).isSome)

/-- Line 837: the submit button is disabled exactly when
`answered < len(quiz)`. -/
def submitDisabled (quizLen : Nat) (answers : List (Nat × String)) : Bool :=
  answeredCount quizLen answers < quizLen

/-- Results scoring (lines 885-893): one point per question whose recorded
answer equals the question's `answer` field; a missing answer never matches. -/
def scoreQuiz (quiz : List RawQ) (answers : List (Nat × String)) : Nat :=
  (List.range quiz.length).countP (fun i =>
    match dget answers i, (quiz.getD i default).answer with
    | some u, some a => u == a
    | _, _ => false)

/-- The cumulative session counters `total_correct_answers` /
`total_questions_answered`. -/
structure Counters where
  totalCorrect : Nat
  totalAnswered : Nat
deriving DecidableEq, Repr

/-- The two code paths that mutate the cumulative counters: the results page
adds the attempt's score and the quiz length (lines 917-918), and the
"🔄 Reset Stats" handler zeroes both (lines 441-442). -/
inductive CounterStep : Counters → Counters → Prop where
  | finishQuiz (quiz : List RawQ) (answers : List (Nat × String)) (c : Counters) :
      CounterStep c ⟨c.totalCorrect + scoreQuiz quiz answers,
                     c.totalAnswered + quiz.length⟩
  | resetStats (c : Counters) :
      CounterStep c ⟨0, 0⟩

/-- Counter states reachable from the `init_session_state` defaults `(0,0)`. -/
def ReachableCounters (c : Counters) : Prop :=
  Relation.ReflTransGen CounterStep ⟨0, 0⟩ c

/-- Sidebar / statistics accuracy (lines 400-402): `0` when nothing was
answered, otherwise `correct / answered * 100`, as a rational. -/
def accuracy (c : Counters) : ℚ :=
  if 0 < c.totalAnswered then
    (c.totalCorrect : ℚ) / (c.totalAnswered : ℚ) * 100
  else 0

/-! Concrete sample values used by counterexamples and witnesses. -/

/-- A random source that leaves the options order unchanged (one of the
permutations `random.shuffle` may produce). -/
def idShuffle : Nat → List String → List String := fun _ l => l

/-- A well-formed question carrying all three required keys. -/
def goodQ : RawQ := ⟨some "Q1", some ["a) 1", "b) 2", "c) 3", "d) 4"], some "a) 1", none⟩

/-- A second well-formed question. -/
def goodQ2 : RawQ := ⟨some "Q2", some ["a) x", "b) y", "c) z", "d) w"], some "c) z", none⟩

/-- A question missing its `answer` key. -/
def badQ : RawQ := ⟨some "Q", some ["a) 1"], none, none⟩

/-- A parse oracle recognising the single completion `"X"` as a one-question
document. -/
def demoParse : String → Option ParsedDoc :=
  fun s => if s = "X" then some ⟨some [goodQ]⟩ else none

/-! Helper lemmas shared between claims. -/

theorem dget_cons {α : Type} (x : Nat × α) (rest : List (Nat × α)) (j : Nat) :
    dget (x :: rest) j = if x.1 = j then some x.2 else dget rest j := by
  unfold dget
  rw [List.find?_cons]
  by_cases hxj : x.1 = j
  · have hb : (x.1 == j) = true := by simp [hxj]
    rw [hb]
    simp [hxj]
  · have hb : (x.1 == j) = false := by simp [hxj]
    rw [hb]
    simp [hxj]

theorem dget_derase_self {α : Type} (d : List (Nat × α)) (k : Nat) :
    dget (derase d k) k = none := by
  unfold dget derase
  cases hfind : (d.filter fun p => p.1 != k).find? fun p => p.1 == k with
  | none => rfl
  | some q =>
    have h1 := List.find?_some hfind
    have h2 := List.mem_of_find?_eq_some hfind
    have h3 := (List.mem_filter.mp h2).2
    simp at h1 h3
    exact absurd h1 h3

theorem dget_derase_ne {α : Type} (d : List (Nat × α)) (k j : Nat) (h : j ≠ k) :
    dget (derase d k) j = dget d j := by
  induction d with
  | nil => rfl
  | cons x rest ih =>
    unfold derase at ih ⊢
    rw [List.filter_cons]
    by_cases hxk : x.1 = k
    · have h2 : x.1 ≠ j := by rw [hxk]; exact fun hh => h hh.symm
      simp only [hxk, bne_self_eq_false, Bool.false_eq_true, if_false]
      rw [dget_cons, if_neg h2]
      exact ih
    · have h1 : (x.1 != k) = true := by simp [hxk]
      simp only [h1, if_true]
      by_cases hxj : x.1 = j
      · rw [dget_cons, dget_cons, if_pos hxj, if_pos hxj]
      · rw [dget_cons, dget_cons, if_neg hxj, if_neg hxj]
        exact ih

theorem getElem?_eraseIdx_lt {α : Type} (l : List α) (i j : Nat) (h : j < i) :
    (l.eraseIdx i)[j]? = l[j]? := by
  induction l generalizing i j with
  | nil => simp [List.eraseIdx]
  | cons a tl ih =>
    cases i with
    | zero => omega
    | succ i' =>
      cases j with
      | zero => simp [List.eraseIdx]
      | succ j' =>
        simp only [List.eraseIdx, List.getElem?_cons_succ]
        exact ih i' j' (by omega)

theorem any_pair_iff_countPair_pos (hist : List Attempt) (d : String) (qi : Nat) :
    (hist.any fun h => h.date == d && h.quizIndex == qi) = true ↔
      0 < countPair hist d qi := by
  constructor
  · intro h
    obtain ⟨x, hx, hpx⟩ := List.any_eq_true.mp h
    have hmem : x ∈ hist.filter fun h => h.date == d && h.quizIndex == qi :=
      List.mem_filter.mpr ⟨hx, hpx⟩
    exact List.length_pos.mpr (List.ne_nil_of_mem hmem)
  · intro h
    obtain ⟨x, hmem⟩ := List.exists_mem_of_length_pos h
    have := List.mem_filter.mp hmem
    exact List.any_eq_true.mpr ⟨x, this.1, this.2⟩

theorem processQuestions_error_of_bad (σ : Nat → List String → List String)
    (i : Nat) (qs : List RawQ) (h : ∃ q ∈ qs, checkKeys q = false) :
    processQuestions σ i qs = .error invalidMsg := by
  induction qs generalizing i with
  | nil => simp at h
  | cons q rest ih =>
    by_cases hq : checkKeys q = true
    · obtain ⟨b, hb, hbad⟩ := h
      rcases List.mem_cons.mp hb with rfl | hb'
      · rw [hq] at hbad; cases hbad
      · have hr := ih (i + 1) ⟨b, hb', hbad⟩
        simp [processQuestions, hq, hr]
    · simp [processQuestions, hq]

theorem processQuestions_ok_of_all (σ : Nat → List String → List String)
    (i : Nat) (qs : List RawQ) (h : ∀ q ∈ qs, checkKeys q = true) :
    ∃ out, processQuestions σ i qs = .ok out ∧ out.length = qs.length := by
  induction qs generalizing i with
  | nil => exact ⟨[], rfl, rfl⟩
  | cons q rest ih =>
    have hq : checkKeys q = true := h q (List.mem_cons_self q rest)
    obtain ⟨out, hout, hlen⟩ := ih (i + 1) (fun b hb => h b (List.mem_cons_of_mem q hb))
    refine ⟨shuffleQuestion (σ i (q.options.getD [])) q :: out, ?_, by simp [hlen]⟩
    simp [processQuestions, hq, hout]

theorem generate_quiz_200 (σ : Nat → List String → List String)
    (parse : String → Option ParsedDoc) (apiKey text content : String)
    (n : Nat) (hk : apiKey ≠ "") (ht : pyStrip text ≠ "") :
    generate_quiz σ parse apiKey text n (.http 200 content none) =
      (match extractQuizData parse content with
       | .error e => (none, some e)
       | .ok d =>
         match validateQuiz σ d with
         | .error e => (none, some e)
         | .ok out => (some out, none)) := by
  simp [generate_quiz, ht, hk]

/-- C3: for a question that passes the key check, whatever permutation the
random source produces, the rewritten question keeps its answer field
verbatim, its option multiset is unchanged, and an answer present among the
options before the shuffle is still present after it. -/
theorem c3_shuffle_preserves (q : RawQ) (opts shuffled : List String)
    (hkeys : checkKeys q = true) (hopts : q.options = some opts)
    (hperm : shuffled.Perm opts) :
    (shuffleQuestion shuffled q).answer = q.answer ∧
    ((shuffleQuestion shuffled q).options.getD [] : Multiset String) =
      (opts : Multiset String) ∧
    (∀ a, q.answer = some a → a ∈ opts →
      a ∈ (shuffleQuestion shuffled q).options.getD []) := by
  refine ⟨rfl, ?_, ?_⟩
  · simpa [shuffleQuestion] using Multiset.coe_eq_coe.mpr hperm
  · intro a _ hmem
    simpa [shuffleQuestion] using hperm.mem_iff.mpr hmem

/-- Witness for C3 at a concrete question and a concrete transposition. -/
theorem c3_shuffle_preserves_witness :
    checkKeys goodQ = true ∧
    (shuffleQuestion ["b) 2", "a) 1", "c) 3", "d) 4"] goodQ).answer = goodQ.answer ∧
    ((shuffleQuestion ["b) 2", "a) 1", "c) 3", "d) 4"] goodQ).options.getD [] :
        Multiset String) = (["a) 1", "b) 2", "c) 3", "d) 4"] : Multiset String) ∧
    (∀ a, goodQ.answer = some a → a ∈ ["a) 1", "b) 2", "c) 3", "d) 4"] →
      a ∈ (shuffleQuestion ["b) 2", "a) 1", "c) 3", "d) 4"] goodQ).options.getD []) :=
  ⟨by decide,
   c3_shuffle_preserves goodQ ["a) 1", "b) 2", "c) 3", "d) 4"]
     ["b) 2", "a) 1", "c) 3", "d) 4"] (by decide) rfl (by decide)⟩

/-- C5: for every quiz of size at least 1, the submit button is disabled
whenever fewer answers are recorded than there are questions, and it is
enabled as soon as every question index has a recorded answer. -/
theorem c5_submission_gating (n : Nat) (answers : List (Nat × String))
    (hn : 1 ≤ n) :
    (answeredCount n answers < n → submitDisabled n answers = true) ∧
    ((∀ i < n, (dget answers i).isSome) → submitDisabled n answers = false) := by
  constructor
  · intro h
    simpa [submitDisabled] using h
  · intro h
    have hall : answeredCount n answers = n := by
      unfold answeredCount
      rw [List.countP_eq_length.mpr, List.length_range]
      intro i hi
      exact h i (List.mem_range.mp hi)
    simp [submitDisabled, hall]

/-- Witness for C5: a two-question quiz with both indices answered. -/
theorem c5_submission_gating_witness :
    (1 : Nat) ≤ 2 ∧ (∀ i < 2, (dget [(0, "a) 1"), (1, "b) 2")] i).isSome) ∧
    submitDisabled 2 [(0, "a) 1"), (1, "b) 2")] = false :=
  ⟨by decide, by decide,
   (c5_submission_gating 2 [(0, "a) 1"), (1, "b) 2")] (by decide)).2 (by decide)⟩

/-- A fenced sample completion used to instantiate C7's scenario. -/
def sampleBody : String := "\x7b\"quiz\": []\x7d"

/-- The sample body wrapped in a ```` ```json ```` fence. -/
def sampleFenced : String := "```json\n" ++ sampleBody ++ "\n```"

/-- The document the sample body stands for. -/
def sampleDoc : ParsedDoc := ⟨some []⟩

/-- A parse oracle that accepts exactly the sample body. -/
def sampleParse : String → Option ParsedDoc :=
  fun s => if s = sampleBody then some sampleDoc else none

/-- C7: the extraction step fails with the parse-failure message exactly when
the direct parse of the fence-stripped, trimmed text fails and the greedy
first-`{`-to-last-`}` fallback also fails (either no brace span exists or its
parse fails); and a completion that is valid JSON wrapped in a ```` ```json
```` fence has its fences stripped and parses successfully. -/
theorem c7_extraction (parse : String → Option ParsedDoc) (content : String) :
    (extractQuizData parse content = .error parseFailMsg ↔
      (parse (cleanMarkdown (pyStrip content)) = none ∧
       ∀ sub, braceSpan (cleanMarkdown (pyStrip content)) = some sub →
         parse sub = none)) ∧
    cleanMarkdown (pyStrip sampleFenced) = sampleBody ∧
    extractQuizData sampleParse sampleFenced = .ok sampleDoc := by
  refine ⟨?_, by decide, rfl⟩
  cases hp : parse (cleanMarkdown (pyStrip content)) with
  | some d => simp [extractQuizData, hp]
  | none =>
    cases hb : braceSpan (cleanMarkdown (pyStrip content)) with
    | none => simp [extractQuizData, hp, hb]
    | some sub =>
      cases hps : parse sub with
      | some d => simp [extractQuizData, hp, hb, hps]
      | none => simp [extractQuizData, hp, hb, hps]

/-- C6: appending an attempt whose `(date, quiz_index)` pair already occurs
in the ledger is a no-op, and for a ledger holding at most one entry for the
pair (the invariant `append` maintains), two successive appends with an
identical pair leave exactly one entry for it. -/
theorem c6_history_dedup (hist : List Attempt) (a b : Attempt)
    (hd : b.date = a.date) (hq : b.quizIndex = a.quizIndex)
    (hcount : countPair hist a.date a.quizIndex ≤ 1) :
    (0 < countPair hist a.date a.quizIndex → appendAttempt hist a = hist) ∧
    countPair (appendAttempt (appendAttempt hist a) b) a.date a.quizIndex = 1 := by
  have hnoop : ∀ h : List Attempt, 0 < countPair h a.date a.quizIndex →
      appendAttempt h a = h := by
    intro h hpos
    unfold appendAttempt
    rw [if_pos ((any_pair_iff_countPair_pos h a.date a.quizIndex).mpr hpos)]
  refine ⟨hnoop hist, ?_⟩
  cases hany : hist.any fun h => h.date == a.date && h.quizIndex == a.quizIndex with
  | true =>
    have hpos := (any_pair_iff_countPair_pos hist a.date a.quizIndex).mp hany
    have h1 : appendAttempt hist a = hist := hnoop hist hpos
    rw [h1]
    have h2 : appendAttempt hist b = hist := by
      unfold appendAttempt
      rw [hd, hq, if_pos hany]
    rw [h2]
    omega
  | false =>
    have hzero : countPair hist a.date a.quizIndex = 0 := by
      by_contra hne
      have := (any_pair_iff_countPair_pos hist a.date a.quizIndex).mpr
        (Nat.pos_of_ne_zero hne)
      rw [hany] at this
      cases this
    have h1 : appendAttempt hist a = hist ++ [a] := by
      unfold appendAttempt
      rw [if_neg]
      simp [hany]
    have h2 : appendAttempt (hist ++ [a]) b = hist ++ [a] := by
      unfold appendAttempt
      rw [if_pos]
      exact List.any_eq_true.mpr ⟨a, by simp, by simp [hd, hq]⟩
    rw [h1, h2]
    unfold countPair at hzero ⊢
    rw [List.filter_append, List.length_append, hzero]
    simp

/-- Witness for C6: two identical attempts appended to an empty ledger leave
one entry. -/
theorem c6_history_dedup_witness :
    countPair [] "2026-10-12 10:00" 0 ≤ 1 ∧
    countPair
      (appendAttempt
        (appendAttempt [] ⟨"2026-10-12 10:00", 50, 1, 2, 0⟩)
        ⟨"2026-10-12 10:00", 50, 1, 2, 0⟩)
      "2026-10-12 10:00" 0 = 1 :=
  ⟨by decide,
   (c6_history_dedup [] ⟨"2026-10-12 10:00", 50, 1, 2, 0⟩
     ⟨"2026-10-12 10:00", 50, 1, 2, 0⟩ rfl rfl (by decide)).2⟩

/-- A one-material state whose material 0 has a stored quiz. -/
def c1State : AppState := ⟨["A"], [(0, [goodQ])], [], 1, 0, 0⟩

/-- C1 counterexample: a regeneration whose generation call fails (here: a
timeout) does not leave the previously stored quiz in place — the quiz for
material 0 is deleted before the call and the deletion stands, so the set of
stored quizzes differs before and after the failing invocation. -/
theorem c1_counterexample :
    (generate_quiz idShuffle demoParse "key" "A" 5 ApiResponse.timeout).2 =
      some "⏱️ Request timed out." ∧
    (regenHandler idShuffle demoParse "key" 0 5 ApiResponse.timeout
      c1State).savedQuizzes = [] ∧
    c1State.savedQuizzes = [(0, [goodQ])] ∧
    (regenHandler idShuffle demoParse "key" 0 5 ApiResponse.timeout
      c1State).savedQuizzes ≠ c1State.savedQuizzes := by
  refine ⟨rfl, rfl, rfl, ?_⟩
  decide

/-- C1 amended: a failed generation invocation leaves the stored quizzes and
the history ledger untouched on the fresh-generation paths; on the
regeneration path the stored quiz for the source is deleted before the call,
so a failed regeneration leaves the store equal to the prior store with that
key removed (and the history ledger untouched); no partial quiz is ever
stored. -/
theorem c1_amended_isolation (σ : Nat → List String → List String)
    (parse : String → Option ParsedDoc) (apiKey input : String)
    (n i : Nat) (resp : ApiResponse) (s : AppState) (e e' : String)
    (h1 : (generate_quiz σ parse apiKey (pyStrip input) n resp).2 = some e)
    (h2 : (generate_quiz σ parse apiKey (s.paragraphs.getD i "") n resp).2 =
      some e') :
    (genNowHandler σ parse apiKey input n resp s).savedQuizzes =
      s.savedQuizzes ∧
    (genNowHandler σ parse apiKey input n resp s).quizHistory =
      s.quizHistory ∧
    (genExistingHandler σ parse apiKey i n resp s).savedQuizzes =
      s.savedQuizzes ∧
    (genExistingHandler σ parse apiKey i n resp s).quizHistory =
      s.quizHistory ∧
    (regenHandler σ parse apiKey i n resp s).savedQuizzes =
      derase s.savedQuizzes i ∧
    (regenHandler σ parse apiKey i n resp s).quizHistory = s.quizHistory := by
  rcases hq1 : generate_quiz σ parse apiKey (pyStrip input) n resp with ⟨q1, e1⟩
  rw [hq1] at h1
  simp only at h1
  subst h1
  rcases hq2 : generate_quiz σ parse apiKey (s.paragraphs.getD i "") n resp
    with ⟨q2, e2⟩
  rw [hq2] at h2
  simp only at h2
  subst h2
  rw [List.getD_eq_getElem?_getD] at hq2
  simp [genNowHandler, genExistingHandler, regenHandler, hq1, hq2]

/-- Witness for C1's amended statement: a timeout against the concrete
one-material state. -/
theorem c1_amended_isolation_witness :
    (genNowHandler idShuffle demoParse "key" "A" 5 ApiResponse.timeout
      c1State).savedQuizzes = c1State.savedQuizzes ∧
    (genNowHandler idShuffle demoParse "key" "A" 5 ApiResponse.timeout
      c1State).quizHistory = c1State.quizHistory ∧
    (genExistingHandler idShuffle demoParse "key" 0 5 ApiResponse.timeout
      c1State).savedQuizzes = c1State.savedQuizzes ∧
    (genExistingHandler idShuffle demoParse "key" 0 5 ApiResponse.timeout
      c1State).quizHistory = c1State.quizHistory ∧
    (regenHandler idShuffle demoParse "key" 0 5 ApiResponse.timeout
      c1State).savedQuizzes = derase c1State.savedQuizzes 0 ∧
    (regenHandler idShuffle demoParse "key" 0 5 ApiResponse.timeout
      c1State).quizHistory = c1State.quizHistory :=
  c1_amended_isolation idShuffle demoParse "key" "A" 5 0 ApiResponse.timeout
    c1State "⏱️ Request timed out." "⏱️ Request timed out." rfl rfl

/-- A response stream whose first response is a rate limit and whose second
would succeed. -/
def retryResps : Nat → ApiResponse := fun k =>
  if k = 0 then .http 429 "" none else .http 200 "X" none

/-- C2 counterexample: a call whose first response is a 429 returns the
terminal rate-limit message immediately — no retry is attempted — even
though a second attempt (the next response in the stream) would have
returned a validated quiz, so the terminal failure is returned with the
claimed retry bound of 3 attempts not exhausted. -/
theorem c2_counterexample :
    generate_quiz_env idShuffle demoParse "key" "text" 5 retryResps =
      (none, some "Rate limit exceeded. Please wait a moment and try again.") ∧
    generate_quiz idShuffle demoParse "key" "text" 5 (retryResps 1) =
      (some [goodQ], none) := by
  constructor
  · rfl
  · rfl

/-- C2 amended: `generate_quiz` performs exactly one attempt — only the first
response of the environment's stream is consumed — and a 429 response or a
timeout produces an immediate terminal failure message with no retry and no
backoff. -/
theorem c2_amended_single_attempt (σ : Nat → List String → List String)
    (parse : String → Option ParsedDoc) (apiKey text : String) (n : Nat)
    (resps : Nat → ApiResponse) (ht : pyStrip text ≠ "") (hk : apiKey ≠ "") :
    generate_quiz_env σ parse apiKey text n resps =
      generate_quiz σ parse apiKey text n (resps 0) ∧
    (resps 0 = .timeout →
      generate_quiz_env σ parse apiKey text n resps =
        (none, some "⏱️ Request timed out.")) ∧
    (∀ c m, resps 0 = .http 429 c m →
      generate_quiz_env σ parse apiKey text n resps =
        (none, some "Rate limit exceeded. Please wait a moment and try again.")) := by
  refine ⟨rfl, ?_, ?_⟩
  · intro h0
    simp [generate_quiz_env, generate_quiz, ht, hk, h0]
  · intro c m h0
    simp [generate_quiz_env, generate_quiz, ht, hk, h0]

/-- Witness for C2's amended statement: a timeout stream yields the terminal
timeout message in one attempt. -/
theorem c2_amended_single_attempt_witness :
    generate_quiz_env idShuffle demoParse "key" "text" 5
      (fun _ => ApiResponse.timeout) = (none, some "⏱️ Request timed out.") :=
  (c2_amended_single_attempt idShuffle demoParse "key" "text" 5
    (fun _ => ApiResponse.timeout) (by decide) (by decide)).2.1 rfl

/-- Distinct marker quizzes for the three materials of the C4 state. -/
def qA : RawQ := ⟨some "fromA", some ["a) 1"], some "a) 1", none⟩

/-- Marker quiz generated from material "B". -/
def qB : RawQ := ⟨some "fromB", some ["a) 1"], some "a) 1", none⟩

/-- Marker quiz generated from material "C". -/
def qC : RawQ := ⟨some "fromC", some ["a) 1"], some "a) 1", none⟩

/-- A three-material state, each material with its own quiz. -/
def c4State : AppState :=
  ⟨["A", "B", "C"], [(0, [qA]), (1, [qB]), (2, [qC])], [], 3, 0, 0⟩

/-- C4 counterexample: deleting material 0 erases paragraph 0 from the list
(shifting the later materials down) but leaves quiz keys 1 and 2 unshifted,
so the quiz that was generated from source "B" (stored at key 1) now
resolves to source "C" — a remaining stored quiz references the wrong
source. -/
theorem c4_counterexample :
    dget (delHandler 0 c4State).savedQuizzes 1 = some [qB] ∧
    sourceOf c4State 1 = some "B" ∧
    sourceOf (delHandler 0 c4State) 1 = some "C" ∧
    sourceOf (delHandler 0 c4State) 1 ≠ sourceOf c4State 1 := by
  refine ⟨rfl, rfl, rfl, ?_⟩
  decide

/-- C4 amended: deleting material `i` (on either page) removes the paragraph
at position `i` and the quiz at key `i` together, and every remaining quiz
with key `j < i` still resolves to its original source; but keys above `i`
are not shifted with the paragraph list, so a remaining quiz with a key
greater than `i` may resolve to a different source than the one it was
generated from. -/
theorem c4_amended_delete (s : AppState) (i j : Nat) (hj : j < i) :
    dget (delHandler i s).savedQuizzes i = none ∧
    (delHandler i s).paragraphs = s.paragraphs.eraseIdx i ∧
    dget (libdelHandler i s).savedQuizzes i = none ∧
    (libdelHandler i s).paragraphs = s.paragraphs.eraseIdx i ∧
    dget (delHandler i s).savedQuizzes j = dget s.savedQuizzes j ∧
    sourceOf (delHandler i s) j = sourceOf s j ∧
    dget (libdelHandler i s).savedQuizzes j = dget s.savedQuizzes j ∧
    sourceOf (libdelHandler i s) j = sourceOf s j := by
  have hne : j ≠ i := Nat.ne_of_lt hj
  refine ⟨?_, rfl, dget_derase_self _ _, rfl, ?_, ?_, ?_, ?_⟩
  · show dget (if (dget s.savedQuizzes i).isSome then derase s.savedQuizzes i
      else s.savedQuizzes) i = none
    split
    · exact dget_derase_self _ _
    · next hns => exact Option.not_isSome_iff_eq_none.mp hns
  · show dget (if (dget s.savedQuizzes i).isSome then derase s.savedQuizzes i
      else s.savedQuizzes) j = dget s.savedQuizzes j
    split
    · exact dget_derase_ne _ _ _ hne
    · rfl
  · exact getElem?_eraseIdx_lt s.paragraphs i j hj
  · exact dget_derase_ne _ _ _ hne
  · exact getElem?_eraseIdx_lt s.paragraphs i j hj

/-- Witness for C4's amended statement at the concrete three-material state,
deleting index 1 and inspecting the surviving key 0. -/
theorem c4_amended_delete_witness :
    (0 : Nat) < 1 ∧
    dget (delHandler 1 c4State).savedQuizzes 1 = none ∧
    (delHandler 1 c4State).paragraphs = c4State.paragraphs.eraseIdx 1 ∧
    dget (libdelHandler 1 c4State).savedQuizzes 1 = none ∧
    (libdelHandler 1 c4State).paragraphs = c4State.paragraphs.eraseIdx 1 ∧
    dget (delHandler 1 c4State).savedQuizzes 0 = dget c4State.savedQuizzes 0 ∧
    sourceOf (delHandler 1 c4State) 0 = sourceOf c4State 0 ∧
    dget (libdelHandler 1 c4State).savedQuizzes 0 =
      dget c4State.savedQuizzes 0 ∧
    sourceOf (libdelHandler 1 c4State) 0 = sourceOf c4State 0 :=
  ⟨by decide, c4_amended_delete c4State 1 0 (by decide)⟩

/-- C8 counterexample: the malformed-question error does not name the
offending index — a batch whose only malformed element sits at index 1 and a
batch whose only malformed element sits at index 0 yield the identical fixed
message, which therefore cannot identify the offending index. -/
theorem c8_counterexample :
    validateQuiz idShuffle ⟨some [goodQ, badQ]⟩ =
      .error "Invalid question format received." ∧
    validateQuiz idShuffle ⟨some [badQ, goodQ]⟩ =
      .error "Invalid question format received." := by
  constructor
  · rfl
  · rfl

/-- C8 amended: validation fails with the empty-result error if the array
under key `quiz` is absent or empty, and with the fixed malformed-question
message `Invalid question format received.` (which does not name the
offending index) if any element lacks one of the keys `question`, `options`,
`answer`; in either case the whole batch is rejected and `generate_quiz`
returns `(null, error)` with no quiz value. -/
theorem c8_amended_validation (σ : Nat → List String → List String)
    (parse : String → Option ParsedDoc) (apiKey text content : String)
    (n : Nat) (d : ParsedDoc) (hk : apiKey ≠ "") (ht : pyStrip text ≠ "")
    (hx : extractQuizData parse content = .ok d) :
    (d.quiz.getD [] = [] →
      validateQuiz σ d = .error emptyMsg ∧
      generate_quiz σ parse apiKey text n (.http 200 content none) =
        (none, some emptyMsg)) ∧
    ((∃ q ∈ d.quiz.getD [], checkKeys q = false) →
      validateQuiz σ d = .error invalidMsg ∧
      generate_quiz σ parse apiKey text n (.http 200 content none) =
        (none, some invalidMsg)) := by
  constructor
  · intro hempty
    have hv : validateQuiz σ d = .error emptyMsg := by
      unfold validateQuiz
      rw [hempty]
      rfl
    refine ⟨hv, ?_⟩
    rw [generate_quiz_200 σ parse apiKey text content n hk ht, hx]
    simp [hv]
  · intro hbad
    have hv : validateQuiz σ d = .error invalidMsg := by
      unfold validateQuiz
      have hnil : d.quiz.getD [] ≠ [] := by
        obtain ⟨q, hq, _⟩ := hbad
        exact List.ne_nil_of_mem hq
      rw [if_neg (by simpa [List.isEmpty_iff] using hnil)]
      exact processQuestions_error_of_bad σ 0 (d.quiz.getD []) hbad
    refine ⟨hv, ?_⟩
    rw [generate_quiz_200 σ parse apiKey text content n hk ht, hx]
    simp [hv]

/-- A parse oracle recognising `"B"` as a document whose single question
lacks its `answer` key. -/
def c8Parse : String → Option ParsedDoc :=
  fun s => if s = "B" then some ⟨some [badQ]⟩ else none

/-- Witness for C8's amended statement: a 200 response whose document holds
one malformed question is rejected wholesale. -/
theorem c8_amended_validation_witness :
    validateQuiz idShuffle ⟨some [badQ]⟩ = .error invalidMsg ∧
    generate_quiz idShuffle c8Parse "key" "text" 5 (.http 200 "B" none) =
      (none, some invalidMsg) :=
  (c8_amended_validation idShuffle c8Parse "key" "text" "B" 5 ⟨some [badQ]⟩
    (by decide) (by decide) rfl).2 ⟨badQ, by decide, by decide⟩

/-- A parse oracle recognising `"Y"` as a two-question document. -/
def c9Parse : String → Option ParsedDoc :=
  fun s => if s = "Y" then some ⟨some [goodQ, goodQ2]⟩ else none

/-- C9: a successful `generate_quiz` call returns exactly the (shuffled)
question list the model produced — its length is the parsed list's length,
never compared against `num_questions` — the result is identical for any two
question counts, and the question count influences only the prompt text. -/
theorem c9_count_only_shapes_prompt (σ : Nat → List String → List String)
    (parse : String → Option ParsedDoc) (apiKey text content : String)
    (d : ParsedDoc) (qs : List RawQ) (n₁ n₂ : Nat)
    (hk : apiKey ≠ "") (ht : pyStrip text ≠ "")
    (hx : extractQuizData parse content = .ok d) (hq : d.quiz = some qs)
    (hne : qs ≠ []) (hall : ∀ q ∈ qs, checkKeys q = true) :
    (∃ out, generate_quiz σ parse apiKey text n₁ (.http 200 content none) =
        (some out, none) ∧ out.length = qs.length) ∧
    generate_quiz σ parse apiKey text n₁ (.http 200 content none) =
      generate_quiz σ parse apiKey text n₂ (.http 200 content none) ∧
    buildPrompt "T" 3 ≠ buildPrompt "T" 4 := by
  refine ⟨?_, rfl, by decide⟩
  obtain ⟨out, hout, hlen⟩ := processQuestions_ok_of_all σ 0 qs hall
  have hv : validateQuiz σ d = .ok out := by
    unfold validateQuiz
    rw [hq]
    simp only [Option.getD_some]
    rw [if_neg (by simpa [List.isEmpty_iff] using hne)]
    exact hout
  refine ⟨out, ?_, hlen⟩
  rw [generate_quiz_200 σ parse apiKey text content n₁ hk ht, hx]
  simp [hv]

/-- Witness for C9: a two-question document accepted although five questions
were requested. -/
theorem c9_count_only_shapes_prompt_witness :
    (∃ out, generate_quiz idShuffle c9Parse "key" "text" 5
        (.http 200 "Y" none) = (some out, none) ∧
      out.length = [goodQ, goodQ2].length) ∧
    generate_quiz idShuffle c9Parse "key" "text" 5 (.http 200 "Y" none) =
      generate_quiz idShuffle c9Parse "key" "text" 7 (.http 200 "Y" none) ∧
    buildPrompt "T" 3 ≠ buildPrompt "T" 4 :=
  c9_count_only_shapes_prompt idShuffle c9Parse "key" "text" "Y"
    ⟨some [goodQ, goodQ2]⟩ [goodQ, goodQ2] 5 7 (by decide) (by decide) rfl rfl
    (by decide) (by decide)

/-- C10: in every counter state reachable from the initial `(0, 0)` through
the scoring and reset steps, `total_correct_answers` never exceeds
`total_questions_answered`, so the displayed overall accuracy lies between
0% and 100%. -/
theorem c10_counters_invariant (c : Counters) (h : ReachableCounters c) :
    c.totalCorrect ≤ c.totalAnswered ∧
    0 ≤ accuracy c ∧ accuracy c ≤ 100 := by
  have key : c.totalCorrect ≤ c.totalAnswered := by
    induction h with
    | refl => exact Nat.le_refl 0
    | tail _ hstep ih =>
      cases hstep with
      | finishQuiz quiz answers b =>
        have hs : scoreQuiz quiz answers ≤ quiz.length := by
          unfold scoreQuiz
          calc (List.range quiz.length).countP _
              ≤ (List.range quiz.length).length := List.countP_le_length _
            _ = quiz.length := List.length_range quiz.length
        exact Nat.add_le_add ih hs
      | resetStats b => exact Nat.le_refl 0
  refine ⟨key, ?_, ?_⟩
  · unfold accuracy
    split
    · positivity
    · exact le_refl 0
  · unfold accuracy
    split
    · next hpos =>
      have hcast : (c.totalCorrect : ℚ) ≤ (c.totalAnswered : ℚ) := by
        exact_mod_cast key
      have hq : (0 : ℚ) < (c.totalAnswered : ℚ) := by exact_mod_cast hpos
      have h1 : (c.totalCorrect : ℚ) / (c.totalAnswered : ℚ) ≤ 1 :=
        (div_le_one hq).mpr hcast
      calc (c.totalCorrect : ℚ) / (c.totalAnswered : ℚ) * 100
          ≤ 1 * 100 := by
            exact mul_le_mul_of_nonneg_right h1 (by norm_num)
        _ = 100 := one_mul 100
    · norm_num

/-- Witness for C10: the state reached after scoring a one-question quiz
answered correctly. -/
theorem c10_counters_invariant_witness :
    ReachableCounters ⟨1, 1⟩ ∧
    ((1 : Nat) ≤ 1 ∧ 0 ≤ accuracy ⟨1, 1⟩ ∧ accuracy ⟨1, 1⟩ ≤ 100) := by
  have hreach : ReachableCounters ⟨1, 1⟩ :=
    Relation.ReflTransGen.single
      (CounterStep.finishQuiz [goodQ] [(0, "a) 1")] ⟨0, 0⟩)
  exact ⟨hreach, c10_counters_invariant ⟨1, 1⟩ hreach⟩

end SmartStudy
